import Mathlib

/-!
Verification development for the MCP server manager
(`gui/server_manager.py`).  The Python module is shallowly embedded:
each Lean definition below mirrors one Python function or method of
`ServerManager` (or a field-level slice of its state), translated
directly from the source.  Strings are Lean `String`s; the handful of
Python `str` operations used by the source (`endswith`, `startswith`,
substring containment, `os.path.basename`, `os.path.join`) are modelled
on the underlying character lists so that they evaluate by `decide`.
Modification times are naturals, pids are naturals, and OS-level facts
(process liveness) are passed in as explicit oracles.
-/

namespace McpManager

/-- Model of Python `str.endswith`. -/
def strEndsWith (s t : String) : Bool := t.data.isSuffixOf s.data

/-- Model of Python `str.startswith`. -/
def strStartsWith (s t : String) : Bool := t.data.isPrefixOf s.data

/-- Model of Python `t in s` (substring containment). -/
def strContains (s t : String) : Bool :=
  s.data.tails.any (fun l => t.data.isPrefixOf l)

/-- Model of Python `str.lower` (ASCII case folding suffices here). -/
def strLower (s : String) : String := String.mk (s.data.map Char.toLower)

/-- Model of `os.path.basename`: the part of the path after the last
path separator (`ntpath` also splits on `\`; the source runs on
Windows and macOS, so both separators are honoured). -/
def basename (s : String) : String :=
  String.mk (s.data.foldl (fun acc c => if c = '/' ∨ c = '\\' then [] else acc ++ [c]) [])

/-- Model of `os.path.join(d, s)` (posix flavour: an absolute second
component discards the first; otherwise a single separator is
inserted unless `d` already ends with one). -/
def pathJoin (d s : String) : String :=
  if strStartsWith s "/" then s
  else if d = "" ∨ strEndsWith d "/" then d ++ s
  else d ++ "/" ++ s

/-- `ServerStatus` constants from the source (the Portuguese display
strings are the values stored in the registry file). -/
inductive Status where
  | stopped
  | running
  | starting
  | stopping
  | error
deriving DecidableEq, Repr

/-- The string value each `ServerStatus` constant carries in the source
(`"Parado"`, `"Em execução"`, ...); this is what `to_dict` persists. -/
def statusStr : Status → String
  | .stopped => "Parado"
  | .running => "Em execução"
  | .starting => "Iniciando"
  | .stopping => "Parando"
  | .error => "Erro"

/-- The `original_config` dict attached to servers imported from a
client configuration file (`command`, `args`, `source`). -/
structure OriginalConfig where
  command : String
  args : List String
  source : String
deriving DecidableEq, Repr

/-- The `Server` class: registry identity plus runtime state.  The
`process` field models the `subprocess.Popen` / `DummyProcess` handle
by its pid (`none` = Python `None`). -/
structure Server where
  name : String
  script_path : String
  config_file : Option String := none
  port : Nat := 8000
  status : Status := .stopped
  process : Option Nat := none
  log_file : Option String := none
  original_config : Option OriginalConfig := none
deriving DecidableEq, Repr

/-- The dictionary produced by `Server.to_dict` (exactly the five keys
that are persisted). -/
structure ServerDict where
  name : String
  script_path : String
  config_file : Option String
  port : Nat
  status : String
deriving DecidableEq, Repr

/-- `Server.to_dict`. -/
def toDict (s : Server) : ServerDict :=
  { name := s.name
    script_path := s.script_path
    config_file := s.config_file
    port := s.port
    status := statusStr s.status }

/-- `_save_servers`: the data handed to `save_json_file` (which dumps
it deterministically), i.e. the persisted registry content. -/
def save_servers (servers : List Server) : List ServerDict :=
  servers.map toDict

/-- `add_server`: rejects a duplicate name (returning `False` and
leaving the list untouched), otherwise appends the server.  The
returned flag is the method's return value. -/
def add_server (servers : List Server) (server : Server) : Bool × List Server :=
  if servers.any (fun existing => existing.name == server.name) then
    (false, servers)
  else
    (true, servers ++ [server])

/-- `get_server`: first server with the given name, if any. -/
def get_server (servers : List Server) (server_name : String) : Option Server :=
  servers.find? (fun s => s.name == server_name)

/-- `remove_server`, restricted to its effect on the registry list.
`confirm` models the user's answer to the "server is running, stop and
remove?" dialog; when the server is running and the answer is no, the
method returns early and the list is untouched.  Otherwise every
server with the given name is filtered out (and the result persisted).
The returned flag distinguishes the "not found" early return. -/
def remove_server (servers : List Server) (server_name : String) (confirm : Bool) :
    Bool × List Server :=
  match get_server servers server_name with
  | none => (false, servers)
  | some server =>
      if server.status = .running ∧ ¬confirm then (false, servers)
      else (true, servers.filter (fun s => !(s.name == server_name)))

/-- `start_server`, restricted to its synchronous effect on one server:
rejected when already `RUNNING`/`STARTING`; `ERROR` (and rejection)
when the script file does not exist (`script_exists` is the
`os.path.exists` oracle); otherwise the status becomes `STARTING` and
the launch thread is spawned (return value `True`). -/
def start_server (server : Server) (script_exists : Bool) : Bool × Server :=
  if server.status = .running ∨ server.status = .starting then
    (false, server)
  else if ¬script_exists then
    (false, { server with status := .error })
  else
    (true, { server with status := .starting })

/-- Tail of `_start_server_thread` (lines 593-618): once
`server.process.wait()` has returned `return_code`, the status is
decided — nonzero maps to `ERROR` unless it is 15 (SIGTERM) while the
server is `STOPPING`, which is a user-requested shutdown and maps to
`STOPPED`; zero maps to `STOPPED`.  The handle is cleared in every
branch. -/
def on_process_exit (server : Server) (return_code : Int) : Server :=
  if return_code ≠ 0 then
    if return_code = 15 ∧ server.status = .stopping then
      { server with status := .stopped, process := none }
    else
      { server with status := .error, process := none }
  else
    { server with status := .stopped, process := none }

/-! ### Restart and the status-change callback (`restart_server`) -/

/-- The value held in `self.on_server_status_changed`.  `user` is an
externally registered listener (a two-parameter function of
`(name, status)`); `stopComplete saved` is the zero-parameter closure
`on_stop_complete` that `restart_server` installs, capturing the
previous callback in `saved`. -/
inductive Callback where
  | noCallback
  | user
  | stopComplete (saved : Callback)
deriving DecidableEq, Repr

/-- The number of parameters each callback accepts:
`_notify_status_changed` always calls it with two arguments
`(server.name, server.status)`. -/
def callbackArity : Callback → Nat
  | .noCallback => 0
  | .user => 2
  | .stopComplete _ => 0

/-- The slice of `ServerManager` state that `restart_server` /
`stop_server` / `_notify_status_changed` interact with for a single
server: its status, the callback slot, and whether `start_server` has
been invoked (the observable the restart claim is about). -/
structure MgrState where
  status : Status
  callback : Callback
  startInvoked : Bool
deriving DecidableEq, Repr

/-- The body of the callback, were the call to reach it:
an external listener does not touch this state; `on_stop_complete`
restores the saved callback and calls `start_server`. -/
def runCallbackBody : Callback → MgrState → MgrState
  | .noCallback, st => st
  | .user, st => st
  | .stopComplete saved, st => { st with callback := saved, startInvoked := true }

/-- `_notify_status_changed`: when a callback is registered it is
invoked as `cb(server.name, server.status)` inside `try/except: pass`.
A callback whose arity is not 2 raises `TypeError` before its body
runs, and the exception is swallowed, so only a two-parameter callback
has any effect. -/
def notify_status_changed (st : MgrState) : MgrState :=
  match st.callback with
  | .noCallback => st
  | cb => if callbackArity cb = 2 then runCallbackBody cb st else st

/-- `_stop_server_thread`, restricted to this state slice: the thread
ends by setting `STOPPED` and notifying. -/
def stop_server_thread (st : MgrState) : MgrState :=
  notify_status_changed { st with status := .stopped }

/-- `stop_server` on this state slice: rejected unless
`RUNNING`/`STARTING`; otherwise sets `STOPPING`, notifies, and runs the
stop thread. -/
def stop_server_m (st : MgrState) : MgrState :=
  if st.status = .running ∨ st.status = .starting then
    stop_server_thread (notify_status_changed { st with status := .stopping })
  else st

/-- `restart_server`: for a `RUNNING`/`STARTING` server it saves the
current callback, installs the zero-parameter `on_stop_complete`
closure in its place, and delegates to `stop_server`; otherwise it
calls `start_server` directly. -/
def restart_server_m (st : MgrState) : MgrState :=
  if st.status = .running ∨ st.status = .starting then
    stop_server_m { st with callback := .stopComplete st.callback }
  else
    { st with startInvoked := true }

/-! ### Process snapshots, the reconciler, and process grouping -/

/-- One entry of a `psutil.process_iter(['pid', 'name', 'cmdline',
'ppid'])` snapshot. -/
structure ProcInfo where
  pid : Nat
  ppid : Nat
  pname : String
  cmdline : List String
deriving DecidableEq, Repr

/-- The command-line matcher used by `check_servers_status`,
`_stop_server_thread` and `check_duplicate_processes`:
`arg.endswith('/' + script_name) or arg.endswith('\\' + script_name)
or arg == script_name`. -/
def argMatchesScript (script_name arg : String) : Bool :=
  strEndsWith arg ("/" ++ script_name) ||
  strEndsWith arg ("\\" ++ script_name) ||
  arg == script_name

/-- Whether any argument of a command line matches the script name
(`any(... for arg in cmdline)`). -/
def cmdlineMatches (script_name : String) (cmdline : List String) : Bool :=
  cmdline.any (argMatchesScript script_name)

/-- The pre-filtering of the snapshot done once per pass:
keep processes whose name contains `python` (case-insensitively) and
whose command line is non-empty. -/
def pythonProcesses (snapshot : List ProcInfo) : List ProcInfo :=
  snapshot.filter (fun p => strContains (strLower p.pname) "python" && !p.cmdline.isEmpty)

/-- First half of the per-server body of `check_servers_status` (lines
1039-1077): determine `is_running`.  `alive pid` is the oracle for
`psutil.Process(pid).is_running() and not zombie` (false also when the
lookup raises).  The pid check is attempted only when a handle with a
truthy pid is present; failing that, the pre-filtered snapshot is
scanned and the handle rebound (via a `DummyProcess`) to the pid of
the first process whose command line matches the script's basename. -/
def reconcileLiveness (alive : Nat → Bool) (python_processes : List ProcInfo)
    (server : Server) : Bool × Server :=
  let is_running₀ :=
    match server.process with
    | some pid => if pid ≠ 0 then alive pid else false
    | none => false
  let found :=
    if !is_running₀ && server.script_path != "" then
      python_processes.find? (fun p => cmdlineMatches (basename server.script_path) p.cmdline)
    else none
  match found with
  | some p => (true, { server with process := some p.pid })
  | none => (is_running₀, server)

/-- Second half of the per-server body (lines 1079-1088): force the
status to `RUNNING` or `STOPPED` according to `is_running`, reporting
a change tuple `(name, previous, new)` only when the status actually
changed (the handle is cleared on a change to `STOPPED`). -/
def applyStatusUpdate (is_running : Bool) (server : Server) :
    Server × Option (String × Status × Status) :=
  if is_running && !(server.status == .running) then
    ({ server with status := .running }, some (server.name, server.status, .running))
  else if !is_running && !(server.status == .stopped) then
    ({ server with status := .stopped, process := none },
      some (server.name, server.status, .stopped))
  else
    (server, none)

/-- The complete per-server body of `check_servers_status`. -/
def check_one_server (alive : Nat → Bool) (python_processes : List ProcInfo)
    (server : Server) : Server × Option (String × Status × Status) :=
  let r := reconcileLiveness alive python_processes server
  applyStatusUpdate r.1 r.2

/-- `check_servers_status`: one pass over all servers against a fixed
snapshot, returning the updated list and the emitted change tuples. -/
def check_servers_status (alive : Nat → Bool) (snapshot : List ProcInfo)
    (servers : List Server) : List Server × List (String × Status × Status) :=
  let py := pythonProcesses snapshot
  let results := servers.map (check_one_server alive py)
  (results.map Prod.fst, results.filterMap Prod.snd)

/-! ### `_group_related_processes` -/

/-- The `pid_to_proc` dict: built left to right with later entries
overwriting earlier ones, so lookup returns the last process carrying
the pid. -/
def pidLookup (processes : List ProcInfo) (p : Nat) : Option ProcInfo :=
  processes.reverse.find? (fun pr => pr.pid == p)

/-- Membership in `pid_to_proc` (`ppid in pid_to_proc`). -/
def inPidSet (processes : List ProcInfo) (p : Nat) : Bool :=
  processes.any (fun pr => pr.pid == p)

/-- The `parent_child` adjacency: `parent_child.get(p, [])`.  An entry
is registered only for parents that are themselves in the pid set, and
children appear in input order. -/
def childrenOf (processes : List ProcInfo) (p : Nat) : List Nat :=
  if inPidSet processes p then
    (processes.filter (fun pr => pr.ppid == p)).map (fun pr => pr.pid)
  else []

/-- The `roots` list: processes whose parent is not in the input set. -/
def rootsOf (processes : List ProcInfo) : List Nat :=
  (processes.filter (fun pr => !inPidSet processes pr.ppid)).map (fun pr => pr.pid)

/-- `collect_tree(root_pid, visited)`: depth-first collection of the
subtree below `root`, threading the (shared, mutable) `visited` set
through the recursion.  The Python recursion terminates because
`visited` grows; here structural `fuel` bounds the depth —
`processes.length + 1` is always sufficient since every productive
call adds a pid to `visited` and only pids of the input occur.  (The
`pidLookup ... = none` branch cannot be reached from the call sites,
where `root` is always in the pid set; Python would raise there.) -/
def collectTree (processes : List ProcInfo) :
    Nat → Nat → List Nat → List ProcInfo × List Nat
  | 0, _, visited => ([], visited)
  | fuel + 1, root, visited =>
    if root ∈ visited then ([], visited)
    else
      let visited' := root :: visited
      let base :=
        match pidLookup processes root with
        | some pr => [pr]
        | none => []
      (childrenOf processes root).foldl
        (fun acc c =>
          let step := collectTree processes fuel c acc.2
          (acc.1 ++ step.1, step.2))
        (base, visited')

/-- `_group_related_processes`: traverse from every root, then
defensively start a traversal from any process not yet visited
(cycles), collecting the groups in order.  Each traversal starts from
a *fresh* `visited` set; only the starting points are filtered against
the cross-group `visited_pids`. -/
def group_related_processes (processes : List ProcInfo) : List (List ProcInfo) :=
  let fuel := processes.length + 1
  let fromRoots :=
    (rootsOf processes).foldl
      (fun (acc : List (List ProcInfo) × List Nat) root =>
        if root ∈ acc.2 then acc
        else
          let g := (collectTree processes fuel root []).1
          (acc.1 ++ [g], acc.2 ++ g.map (fun pr => pr.pid)))
      ([], [])
  let fromRemaining :=
    processes.foldl
      (fun (acc : List (List ProcInfo) × List Nat) pr =>
        if pr.pid ∈ acc.2 then acc
        else
          let g := (collectTree processes fuel pr.pid []).1
          if g.isEmpty then acc
          else (acc.1 ++ [g], acc.2 ++ g.map (fun q => q.pid)))
      fromRoots
  fromRemaining.1

/-- The root pid of each returned group: `collect_tree` places the
traversal root first, so it is the head of the group list. -/
def groupRootPids (groups : List (List ProcInfo)) : List Nat :=
  groups.filterMap (fun g => g.head?.map (fun pr => pr.pid))

/-- The script-matching processes that `check_duplicate_processes`
hands to `_group_related_processes` for a given script name. -/
def scriptProcesses (script_name : String) (python_processes : List ProcInfo) :
    List ProcInfo :=
  python_processes.filter (fun p => cmdlineMatches script_name p.cmdline)

/-! ### The stop-time sweep over the whole process table -/

/-- A signal sent by `_stop_server_thread`'s sweep. -/
inductive KillAction where
  | terminate (pid : Nat)
  | kill (pid : Nat)
deriving DecidableEq, Repr

/-- The system-wide sweep at the end of `_stop_server_thread` (lines
862-890): every process of the *full* snapshot (not only the tracked
tree) whose command line has an argument matching the script's
basename receives `terminate()`, followed — when it is still alive
after the 3-second wait, per the `still_alive` oracle — by `kill()`.
Processes with an empty command line are skipped. -/
def stop_sweep (script_name : String) (snapshot : List ProcInfo)
    (still_alive : Nat → Bool) : List KillAction :=
  snapshot.flatMap
    (fun p =>
      if !p.cmdline.isEmpty && cmdlineMatches script_name p.cmdline then
        KillAction.terminate p.pid ::
          (if still_alive p.pid then [KillAction.kill p.pid] else [])
      else [])

/-! ### Log rotation (`_rotate_log_files`, `_limitar_total_logs`) -/

/-- A file of the log directory: its name and its modification time
(`os.path.getmtime`). -/
structure LogFile where
  fname : String
  mtime : Nat
deriving DecidableEq, Repr

/-- `fnmatch.fnmatch(filename, f"{server_name}_*.log")`: the name
starts with `server_name ++ "_"` and the remainder ends with
`.log` (the `*` matches any, possibly empty, run). -/
def matchesLogPattern (server_name : String) (filename : String) : Bool :=
  let pre := (server_name ++ "_").data
  pre.isPrefixOf filename.data && ".log".data.isSuffixOf (filename.data.drop pre.length)

/-- Ascending order on modification time (`sort(key=lambda x: x[1])`). -/
def mtimeLe (f g : LogFile) : Prop := f.mtime ≤ g.mtime

instance : DecidableRel mtimeLe := fun f g => Nat.decLe f.mtime g.mtime

instance : IsTotal LogFile mtimeLe := ⟨fun f g => Nat.le_total f.mtime g.mtime⟩

instance : IsTrans LogFile mtimeLe := ⟨fun _ _ _ h h' => Nat.le_trans h h'⟩

/-- The per-server selection used by `_rotate_log_files`. -/
def serverLogSel (server_name : String) : LogFile → Bool :=
  fun f => matchesLogPattern server_name f.fname

/-- The global selection used by `_limitar_total_logs`
(`filename.endswith('.log')`). -/
def anyLogSel : LogFile → Bool :=
  fun f => strEndsWith f.fname ".log"

/-- Python's `lst[:-k]` slice, dropping the last `k` elements: for
`k = 0` the slice `[:-0]` is `[:0]`, i.e. *empty*; otherwise it is the
first `length - k` elements. -/
def dropLastSlice (l : List LogFile) (k : Nat) : List LogFile :=
  if k = 0 then [] else l.take (l.length - k)

/-- The per-server pass of `_rotate_log_files server_name max_files`,
restricted to its own deletions: select the files matching the
server's pattern, sort them by modification time ascending, and delete
`log_files[:-max_files] if len(log_files) > max_files else []` — the
oldest beyond the cap (none at all when `max_files = 0`, by the slice
semantics).  Returns `(deleted, remaining directory)`; every deletion
is assumed to succeed (failures are logged and skipped in the
source). -/
def pruneOldestServer (server_name : String) (max_files : Nat) (dir : List LogFile) :
    List LogFile × List LogFile :=
  let sorted := (dir.filter (serverLogSel server_name)).insertionSort mtimeLe
  let toRemove := if sorted.length > max_files then dropLastSlice sorted max_files else []
  (toRemove, dir.filter (fun f => !(toRemove.map LogFile.fname).contains f.fname))

/-- The shape of the `_limitar_total_logs max_total` pass: select the
log files matched by `sel` (the source instantiates the `.log`-suffix
test `anyLogSel`), sort them by modification time ascending and, when
there are more than `cap`, delete `all_logs[i]` for
`i in range(len(all_logs) - max_total)` — the first `length - cap` of
the ascending sort (at `cap = 0` this pass, unlike the slice-based
per-server pass, deletes every selected file).  Returns
`(deleted, remaining directory)`. -/
def pruneOldest (sel : LogFile → Bool) (cap : Nat) (dir : List LogFile) :
    List LogFile × List LogFile :=
  let sorted := (dir.filter sel).insertionSort mtimeLe
  let toRemove := if sorted.length > cap then sorted.take (sorted.length - cap) else []
  (toRemove, dir.filter (fun f => !(toRemove.map LogFile.fname).contains f.fname))

/-- `_rotate_log_files server_name max_files` followed by the
`_limitar_total_logs max_total` call it makes: first the per-server
pass, then the global pass over what remains.  Returns the two deleted
batches and the final directory. -/
def rotate_log_files (server_name : String) (dir : List LogFile)
    (max_files : Nat := 10) (max_total : Nat := 100) :
    List LogFile × List LogFile × List LogFile :=
  let perServer := pruneOldestServer server_name max_files dir
  let globalPass := pruneOldest anyLogSel max_total perServer.2
  (perServer.1, globalPass.1, globalPass.2)

/-! ### Import from client configuration files
(`_load_client_config_servers`) -/

/-- The first scan over `args`: every `"--directory"` that still has a
following token records that token, later occurrences overwriting
earlier ones (the loop inspects each index in turn). -/
def scanDirectory (acc : Option String) : List String → Option String
  | [] => acc
  | [_] => acc
  | a :: b :: rest =>
      scanDirectory (if a == "--directory" then some b else acc) (b :: rest)

/-- The second scan: every `"run"` whose following token ends in
`.py` records that token — immediately joined with the directory when
one was found (an empty-string directory is falsy in Python and is not
joined) — later occurrences overwriting earlier ones. -/
def scanScript (directory : Option String) (acc : Option String) :
    List String → Option String
  | [] => acc
  | [_] => acc
  | a :: b :: rest =>
      scanScript directory
        (if a == "run" && strEndsWith b ".py" then
          some (match directory with
                | some d => if d = "" then b else pathJoin d b
                | none => b)
        else acc)
        (b :: rest)

/-- Processing of a single `mcpServers` entry by
`_load_client_config_servers`: a name that is already registered is
skipped; otherwise the two scans run over `args` and, only when a
script was found, a server carrying the verbatim `command`/`args` as
its `original_config` is appended (via `add_server` with
`save_config=False`).  `source` is the client-config label
(`"cursor"`/`"claude"`). -/
def load_client_server (servers : List Server) (name : String)
    (command : String) (args : List String) (source : String) : List Server :=
  if servers.any (fun s => s.name == name) then servers
  else
    let directory := scanDirectory none args
    match scanScript directory none args with
    | some script_path =>
        (add_server servers
          { name := name
            script_path := script_path
            config_file := none
            original_config := some { command := command, args := args, source := source } }).2
    | none => servers

/-! ### Concrete example inputs used by witnesses and counterexamples -/

/-- A server in status `Stopping` (used by the C4 theorems). -/
def c4Server : Server := { name := "srv", script_path := "/a/s.py", status := .stopping }

/-- A process whose parent is the self-looping process below (C1). -/
def c1Child : ProcInfo := { pid := 1, ppid := 2, pname := "python", cmdline := ["python", "x.py"] }

/-- A process whose `ppid` edge forms a cycle (its own pid) (C1). -/
def c1Loop : ProcInfo := { pid := 2, ppid := 2, pname := "python", cmdline := ["python", "x.py"] }

/-- A process unrelated to any tracked tree whose command line matches the
script basename (used by the C10 witness). -/
def c10Proc : ProcInfo :=
  { pid := 7, ppid := 1, pname := "python", cmdline := ["python", "/x/s.py"] }

/-- The server used by the C2 theorems: its tracked pid 99 is dead. -/
def c2Server : Server :=
  { name := "srv", script_path := "/a/srv.py", status := .running, process := some 99 }

/-- A child process matching the script (listed first in the snapshot). -/
def c2Child : ProcInfo :=
  { pid := 5, ppid := 3, pname := "python", cmdline := ["python", "/a/srv.py"] }

/-- The parent of `c2Child`, also matching the script. -/
def c2Parent : ProcInfo :=
  { pid := 3, ppid := 1, pname := "python", cmdline := ["python", "/a/srv.py"] }

/-- A registered server (used by the C7 witness). -/
def c7A : Server := { name := "a", script_path := "/p/a.py" }

/-- A fresh server added and removed by the C7 witness. -/
def c7B : Server := { name := "b", script_path := "/p/b.py" }

/-- A concrete log directory: three files of server `a`, two of server `b`
(used by the C5 witness). -/
def c5Dir : List LogFile :=
  [ { fname := "a_1.log", mtime := 1 },
    { fname := "a_2.log", mtime := 2 },
    { fname := "a_3.log", mtime := 3 },
    { fname := "b_1.log", mtime := 0 },
    { fname := "b_2.log", mtime := 5 } ]

/-! ## Theorems for the claims -/

/-- C3: when the launched process exits, a zero return code maps the server to
`Stopped`; a nonzero return code maps it to `Error`, except that return code 15
(the graceful-terminate signal) observed while the status is `Stopping` maps to
`Stopped` rather than `Error`. -/
theorem C3_exit_code_mapping (server : Server) (rc : Int) :
    (rc = 0 → (on_process_exit server rc).status = .stopped) ∧
    (rc = 15 → server.status = .stopping →
      (on_process_exit server rc).status = .stopped) ∧
    (rc ≠ 0 → ¬(rc = 15 ∧ server.status = .stopping) →
      (on_process_exit server rc).status = .error) := by
  refine ⟨fun h => ?_, fun h hs => ?_, fun h hn => ?_⟩ <;>
    unfold on_process_exit <;> split_ifs <;> simp_all

/-- Witness for C3 at a concrete input: exit code 15 during `Stopping`. -/
theorem C3_exit_code_mapping_witness :
    (on_process_exit { name := "srv", script_path := "/a/s.py", status := .stopping } 15).status
      = .stopped :=
  (C3_exit_code_mapping { name := "srv", script_path := "/a/s.py", status := .stopping } 15).2.1
    rfl rfl

/-- C4 counterexample: a start request for a `Stopping` definition is *not*
rejected — `start_server` returns success and moves the status to `Starting`
(the guard only rejects `Running`/`Starting`). -/
theorem C4_counterexample :
    c4Server.status = .stopping ∧
    (start_server c4Server true).1 = true ∧
    (start_server c4Server true).2.status = .starting := by decide

/-- C4 (amended): a start request is rejected — returning failure and leaving
the definition untouched — exactly when the status is `Running` or `Starting`;
for a `Stopping` definition whose script exists the request is accepted and the
status becomes `Starting`. -/
theorem C4_amended (server : Server) (script_exists : Bool) :
    (server.status = .running ∨ server.status = .starting →
      start_server server script_exists = (false, server)) ∧
    (server.status = .stopping → script_exists = true →
      (start_server server script_exists).1 = true ∧
      (start_server server script_exists).2.status = .starting) := by
  constructor
  · intro h
    unfold start_server
    simp [h]
  · intro h hse
    subst hse
    have hno : ¬(server.status = .running ∨ server.status = .starting) := by
      rw [h]; rintro (hc | hc) <;> exact absurd hc (by decide)
    unfold start_server
    simp [hno]

/-- Witness for C4 (amended) at a concrete input. -/
theorem C4_amended_witness :
    (start_server c4Server true).1 = true ∧
    (start_server c4Server true).2.status = .starting :=
  (C4_amended c4Server true).2 rfl rfl

/-- C6 (evaluating the code at the failing input): for a `Running` server with
a registered listener, `restart_server` installs the zero-parameter
`on_stop_complete` closure and delegates to `stop_server`, but
`_notify_status_changed` invokes the callback with two arguments
`(name, status)`; the resulting `TypeError` is swallowed by the bare `except`,
so `start_server` is never invoked and the saved listener is never restored —
the stop phase runs to `Stopped` and the restart never performs its start
phase. -/
theorem C6_restart_start_never_invoked :
    restart_server_m { status := .running, callback := .user, startInvoked := false } =
      { status := .stopped, callback := .stopComplete .user, startInvoked := false } := by
  decide

/-- C1 (evaluating the code at the failing input): on the two-node input whose
`ppid` edges form a cycle — pid 1 with parent 2, pid 2 its own parent — the
grouping returns `[[1], [2, 1]]`: node 1 appears in *two* returned groups and
the group `[1]` is not a connected component (1's parent 2 is in the input but
not in the group), so the result is not a partition.  Each traversal starts
from a fresh `visited` set, so the defensive second pass re-collects nodes that
an earlier group already contains. -/
theorem C1_node_in_two_groups :
    group_related_processes [c1Child, c1Loop] = [[c1Child], [c1Loop, c1Child]] ∧
    List.countP (fun g => g.contains c1Child)
      (group_related_processes [c1Child, c1Loop]) = 2 := by decide

/-- C10: the system-wide sweep at the end of a stop sends `terminate` to every
snapshot process having a command-line argument equal to the script basename or
ending with a path separator followed by it — no condition on the process's
`ppid` or membership in the tracked process tree is consulted — and escalates
to `kill` for any such process still alive after the bounded wait. -/
theorem C10_sweep_hits_every_match (script_name : String) (snapshot : List ProcInfo)
    (still_alive : Nat → Bool) (p : ProcInfo)
    (hmem : p ∈ snapshot)
    (hmatch : cmdlineMatches script_name p.cmdline = true) :
    KillAction.terminate p.pid ∈ stop_sweep script_name snapshot still_alive ∧
    (still_alive p.pid = true →
      KillAction.kill p.pid ∈ stop_sweep script_name snapshot still_alive) := by
  have hne : p.cmdline.isEmpty = false := by
    cases hc : p.cmdline with
    | nil => rw [hc] at hmatch; simp [cmdlineMatches] at hmatch
    | cons a l => simp
  constructor
  · rw [stop_sweep, List.mem_flatMap]
    refine ⟨p, hmem, ?_⟩
    simp [hne, hmatch]
  · intro ha
    rw [stop_sweep, List.mem_flatMap]
    refine ⟨p, hmem, ?_⟩
    simp [hne, hmatch, ha]

/-- Witness for C10 at a concrete input: a matching process whose pid/ppid are
unrelated to any tracked tree is both terminated and killed. -/
theorem C10_sweep_witness :
    KillAction.terminate 7 ∈ stop_sweep "s.py" [c10Proc] (fun _ => true) ∧
    KillAction.kill 7 ∈ stop_sweep "s.py" [c10Proc] (fun _ => true) := by
  have h := C10_sweep_hits_every_match "s.py" [c10Proc] (fun _ => true) c10Proc
    (by decide) (by decide)
  exact ⟨h.1, h.2 rfl⟩

/-- After the status-update half of a pass the status is `Running` exactly when
liveness was observed and `Stopped` otherwise, whatever it was before. -/
lemma applyStatusUpdate_status (b : Bool) (server : Server) :
    (applyStatusUpdate b server).1.status = (if b then Status.running else Status.stopped) := by
  cases b <;> cases hs : server.status <;> simp [applyStatusUpdate, hs]

/-- When liveness was observed, the status-update half leaves the (possibly
rebound) handle untouched. -/
lemma applyStatusUpdate_process_true (server : Server) :
    (applyStatusUpdate true server).1.process = server.process := by
  cases hs : server.status <;> simp [applyStatusUpdate, hs]

/-- When the pid check and the snapshot scan both fail, the liveness half
reports `false` and leaves the server untouched. -/
lemma reconcileLiveness_dead (alive : Nat → Bool) (python_processes : List ProcInfo)
    (server : Server)
    (hdead : ∀ pid, server.process = some pid → alive pid = false)
    (hnomatch : ∀ p ∈ python_processes,
        cmdlineMatches (basename server.script_path) p.cmdline = false) :
    reconcileLiveness alive python_processes server = (false, server) := by
  have h0 : (match server.process with
      | some pid => if pid ≠ 0 then alive pid else false
      | none => false) = false := by
    cases hp : server.process with
    | none => rfl
    | some pid =>
        by_cases hz : pid ≠ 0 <;> simp [hz, hdead pid hp]
  have hf : python_processes.find?
      (fun p => cmdlineMatches (basename server.script_path) p.cmdline) = none :=
    List.find?_eq_none.mpr (fun x hx => by simp [hnomatch x hx])
  unfold reconcileLiveness
  rw [h0, hf]
  simp

/-- C9: after a single reconciliation pass every server's status is `Running`
or `Stopped`; in particular a definition in `Error` whose pid check fails and
for which no snapshot process matches the script basename is set to `Stopped`
(with the handle cleared and a change tuple reported). -/
theorem C9_pass_yields_running_or_stopped (alive : Nat → Bool) (snapshot : List ProcInfo)
    (servers : List Server) :
    (∀ s' ∈ (check_servers_status alive snapshot servers).1,
        s'.status = .running ∨ s'.status = .stopped) ∧
    (∀ server ∈ servers, server.status = .error →
      (∀ pid, server.process = some pid → alive pid = false) →
      (∀ p ∈ pythonProcesses snapshot,
          cmdlineMatches (basename server.script_path) p.cmdline = false) →
      check_one_server alive (pythonProcesses snapshot) server =
        ({ server with status := .stopped, process := none },
          some (server.name, .error, .stopped))) := by
  constructor
  · intro s' hs'
    unfold check_servers_status at hs'
    simp only [List.map_map, List.mem_map, Function.comp] at hs'
    obtain ⟨sv, _, rfl⟩ := hs'
    unfold check_one_server
    rw [applyStatusUpdate_status]
    cases (reconcileLiveness alive (pythonProcesses snapshot) sv).1 <;> simp
  · intro server _ herr hdead hnomatch
    unfold check_one_server
    rw [reconcileLiveness_dead alive (pythonProcesses snapshot) server hdead hnomatch]
    simp [applyStatusUpdate, herr]

/-- Witness for C9 at a concrete input: an `Error` server with a dead handle
and an empty snapshot is reassigned `Stopped` by the pass. -/
theorem C9_witness :
    check_one_server (fun _ => false) (pythonProcesses [])
        { name := "srv", script_path := "/a/s.py", status := .error, process := some 42 } =
      ({ name := "srv", script_path := "/a/s.py", status := .stopped, process := none },
        some ("srv", .error, .stopped)) :=
  (C9_pass_yields_running_or_stopped (fun _ => false) []
      [{ name := "srv", script_path := "/a/s.py", status := .error, process := some 42 }]).2
    { name := "srv", script_path := "/a/s.py", status := .error, process := some 42 }
    (by decide) rfl (fun _ _ => rfl) (by intro p hp; cases hp)

/-- C2 (amended): during a pass, a definition whose tracked pid is dead (or
whose handle is absent) is rebound to the pid of the *first* snapshot process
whose command line matches the script basename — no grouping of the matching
processes is performed, the ProcessGroupAnalyzer is not consulted — and the
definition is treated as `Running`. -/
theorem C2_rebind_first_match (alive : Nat → Bool) (python_processes : List ProcInfo)
    (server : Server) (p : ProcInfo)
    (hdead : ∀ pid, server.process = some pid → alive pid = false)
    (hpath : server.script_path ≠ "")
    (hfind : python_processes.find?
        (fun q => cmdlineMatches (basename server.script_path) q.cmdline) = some p) :
    (check_one_server alive python_processes server).1.process = some p.pid ∧
    (check_one_server alive python_processes server).1.status = .running := by
  have h0 : (match server.process with
      | some pid => if pid ≠ 0 then alive pid else false
      | none => false) = false := by
    cases hp : server.process with
    | none => rfl
    | some pid =>
        by_cases hz : pid ≠ 0 <;> simp [hz, hdead pid hp]
  have hr : reconcileLiveness alive python_processes server =
      (true, { server with process := some p.pid }) := by
    unfold reconcileLiveness
    rw [h0, hfind]
    simp [hpath]
  unfold check_one_server
  rw [hr]
  exact ⟨by rw [applyStatusUpdate_process_true], by rw [applyStatusUpdate_status]; rfl⟩

/-- C2 counterexample: with the child listed before its parent in the
snapshot, the reconciler rebinds the handle to pid 5 — the first match — while
the ProcessGroupAnalyzer over the script-matching processes yields the single
group rooted at pid 3, so the rebound pid is not the root pid of any group. -/
theorem C2_counterexample :
    (check_one_server (fun _ => false) (pythonProcesses [c2Child, c2Parent]) c2Server).1.process
        = some 5 ∧
    (check_one_server (fun _ => false) (pythonProcesses [c2Child, c2Parent]) c2Server).1.status
        = .running ∧
    group_related_processes
        (scriptProcesses (basename c2Server.script_path) (pythonProcesses [c2Child, c2Parent]))
        = [[c2Parent, c2Child]] ∧
    groupRootPids [[c2Parent, c2Child]] = [3] ∧
    ¬(5 : Nat) = 3 := by decide

/-- Witness for C2 (amended) at a concrete input. -/
theorem C2_rebind_first_match_witness :
    (check_one_server (fun _ => false) [c2Child, c2Parent] c2Server).1.process = some 5 ∧
    (check_one_server (fun _ => false) [c2Child, c2Parent] c2Server).1.status = .running :=
  C2_rebind_first_match (fun _ => false) [c2Child, c2Parent] c2Server c2Child
    (fun _ _ => rfl) (by decide) (by decide)

/-- C7: for a registry state and a definition whose name does not occur in it,
`add` followed by `remove` of that name restores the registry list exactly, so
the persisted file (a deterministic dump of `save_servers`) is byte-for-byte
the one persisted for the original state; and `add` of an already-present name
fails with the duplicate-name error, leaving the list unextended.  (`confirm`
is the running-server confirmation dialog; the round trip assumes removal is
not aborted there.) -/
theorem C7_add_remove_round_trip (servers : List Server) (s : Server) (confirm : Bool) :
    (s.name ∉ servers.map Server.name →
      (s.status = .running → confirm = true) →
      remove_server (add_server servers s).2 s.name confirm = (true, servers) ∧
      save_servers (remove_server (add_server servers s).2 s.name confirm).2 =
        save_servers servers) ∧
    (s.name ∈ servers.map Server.name →
      add_server servers s = (false, servers)) := by
  constructor
  · intro hfresh hconf
    have hnm : ∀ x ∈ servers, (x.name == s.name) = false := by
      intro x hx
      rw [beq_eq_false_iff_ne]
      intro he
      exact hfresh (he ▸ List.mem_map_of_mem Server.name hx)
    have hany : (servers.any fun existing => existing.name == s.name) = false :=
      List.any_eq_false.mpr (fun x hx => by simp [hnm x hx])
    have hadd : (add_server servers s).2 = servers ++ [s] := by
      simp [add_server, hany]
    have hget : get_server (servers ++ [s]) s.name = some s := by
      unfold get_server
      rw [List.find?_append]
      have h1 : servers.find? (fun x => x.name == s.name) = none :=
        List.find?_eq_none.mpr (fun x hx => by simp [hnm x hx])
      rw [h1]
      simp
    have hrem : remove_server (servers ++ [s]) s.name confirm = (true, servers) := by
      unfold remove_server
      rw [hget]
      have hcond : ¬(s.status = .running ∧ ¬confirm = true) := by
        rintro ⟨hr, hc⟩
        exact hc (hconf hr)
      dsimp only
      rw [if_neg hcond]
      have hfilt : (servers ++ [s]).filter (fun x => !(x.name == s.name)) = servers := by
        rw [List.filter_append]
        have h2 : servers.filter (fun x => !(x.name == s.name)) = servers :=
          List.filter_eq_self.mpr (fun x hx => by simp [hnm x hx])
        have h3 : [s].filter (fun x => !(x.name == s.name)) = [] := by simp
        rw [h2, h3, List.append_nil]
      rw [hfilt]
    rw [hadd]
    exact ⟨hrem, by rw [hrem]⟩
  · intro hmem
    obtain ⟨x, hx, hxe⟩ := List.mem_map.mp hmem
    have hany : (servers.any fun existing => existing.name == s.name) = true :=
      List.any_eq_true.mpr ⟨x, hx, by simp [hxe]⟩
    simp [add_server, hany]

/-- Witness for C7 at a concrete input. -/
theorem C7_add_remove_round_trip_witness :
    remove_server (add_server [c7A] c7B).2 c7B.name false = (true, [c7A]) ∧
    save_servers (remove_server (add_server [c7A] c7B).2 c7B.name false).2 =
      save_servers [c7A] :=
  (C7_add_remove_round_trip [c7A] c7B false).1 (by decide) (fun h => absurd h (by decide))

/-- C8 counterexample: an entry whose `args` contain a `--directory <path>`
pair and a trailing `.ext` script token — but no `run` token — is *not*
imported: the source only recognises a script as the token following `run`
(and only with the `.py` extension), so no definition is created. -/
theorem C8_counterexample :
    (["--directory", "/d", "server.py"] : List String).getLast? = some "server.py" ∧
    strEndsWith "server.py" ".py" = true ∧
    load_client_server [] "x" "uv" ["--directory", "/d", "server.py"] "cursor" = [] := by
  decide

/-- C8 (amended): for an external entry whose name is not registered and whose
`args` contain a `--directory <path>` pair and a `run` token immediately
followed by a `.py` script token, the import creates a definition whose script
path is the script token joined with the directory, preserving the external
command and args verbatim in `original_config`, and never overwriting a known
entry (the fresh-name precondition is checked against the registry). -/
theorem C8_import_amended (servers : List Server) (name command d s source : String)
    (hfresh : ∀ sv ∈ servers, sv.name ≠ name)
    (hd1 : d ≠ "--directory") (hd0 : d ≠ "")
    (hs : strEndsWith s ".py" = true) :
    load_client_server servers name command ["--directory", d, "run", s] source =
      servers ++ [{ name := name,
                    script_path := pathJoin d s,
                    original_config := some { command := command,
                                              args := ["--directory", d, "run", s],
                                              source := source } }] := by
  have hany : (servers.any fun sv => sv.name == name) = false :=
    List.any_eq_false.mpr (fun x hx => by simp [hfresh x hx])
  have hdir : scanDirectory none ["--directory", d, "run", s] = some d := by
    have e1 : (("--directory" : String) == "--directory") = true := by decide
    have e2 : (d == "--directory") = false := by simp [hd1]
    have e3 : (("run" : String) == "--directory") = false := by decide
    simp [scanDirectory, e1, e2, e3]
  have hscr : scanScript (some d) none ["--directory", d, "run", s] = some (pathJoin d s) := by
    have e1 : (("--directory" : String) == "run") = false := by decide
    have e4 : strEndsWith "run" ".py" = false := by decide
    have e5 : (("run" : String) == "run") = true := by decide
    simp [scanScript, e1, e4, e5, hs, hd0]
  unfold load_client_server
  rw [hany]
  simp only [Bool.false_eq_true, if_false]
  rw [hdir, hscr]
  simp [add_server, hany]

/-- Witness for C8 (amended) at a concrete input. -/
theorem C8_import_amended_witness :
    load_client_server [] "x" "uv" ["--directory", "/proj", "run", "main.py"] "cursor" =
      [{ name := "x",
         script_path := pathJoin "/proj" "main.py",
         original_config := some { command := "uv",
                                   args := ["--directory", "/proj", "run", "main.py"],
                                   source := "cursor" } }] :=
  C8_import_amended [] "x" "uv" "/proj" "main.py" "cursor"
    (fun _ h => absurd h (by simp)) (by decide) (by decide) (by decide)

/-- Unfolding `pruneOldest` in the over-cap case. -/
lemma pruneOldest_eq (sel : LogFile → Bool) (cap : Nat) (dir : List LogFile)
    (h : ((dir.filter sel).insertionSort mtimeLe).length > cap) :
    pruneOldest sel cap dir =
      (((dir.filter sel).insertionSort mtimeLe).take
          (((dir.filter sel).insertionSort mtimeLe).length - cap),
        dir.filter (fun f =>
          !((((dir.filter sel).insertionSort mtimeLe).take
              (((dir.filter sel).insertionSort mtimeLe).length - cap)).map
                LogFile.fname).contains f.fname)) := by
  unfold pruneOldest
  simp only [if_pos h]

/-- Full specification of one pruning pass when the selected files exceed the
cap: the deleted batch has size `N - cap`, exactly `cap` selected files remain
in the directory, every deleted file is at least as old as every surviving
selected file, and the surviving directory still has pairwise-distinct
names. -/
lemma pruneOldest_spec (sel : LogFile → Bool) (cap : Nat) (dir : List LogFile)
    (hnd : (dir.map LogFile.fname).Nodup)
    (hover : (dir.filter sel).length > cap) :
    (pruneOldest sel cap dir).1.length = (dir.filter sel).length - cap ∧
    ((pruneOldest sel cap dir).2.filter sel).length = cap ∧
    (∀ f ∈ (pruneOldest sel cap dir).1, ∀ g ∈ (pruneOldest sel cap dir).2,
        sel g = true → f.mtime ≤ g.mtime) ∧
    ((pruneOldest sel cap dir).2.map LogFile.fname).Nodup := by
  have hperm : ((dir.filter sel).insertionSort mtimeLe).Perm (dir.filter sel) :=
    List.perm_insertionSort mtimeLe (dir.filter sel)
  have hlen : ((dir.filter sel).insertionSort mtimeLe).length = (dir.filter sel).length :=
    hperm.length_eq
  have hk : ((dir.filter sel).insertionSort mtimeLe).length > cap := by
    rw [hlen]; exact hover
  rw [pruneOldest_eq sel cap dir hk]
  set S := (dir.filter sel).insertionSort mtimeLe with hSdef
  set k := S.length - cap with hkdef
  set notR : LogFile → Bool :=
    fun f => !((S.take k).map LogFile.fname).contains f.fname with hnotR
  have hsplit : S.take k ++ S.drop k = S := List.take_append_drop k S
  have hsorted : List.Pairwise mtimeLe S := List.sorted_insertionSort mtimeLe (dir.filter sel)
  have hpw : List.Pairwise mtimeLe (S.take k ++ S.drop k) := by rw [hsplit]; exact hsorted
  have hord : ∀ f ∈ S.take k, ∀ g ∈ S.drop k, mtimeLe f g :=
    (List.pairwise_append.mp hpw).2.2
  have hnodl : ((dir.filter sel).map LogFile.fname).Nodup :=
    List.Nodup.sublist ((List.filter_sublist dir).map LogFile.fname) hnd
  have hnodS : (S.map LogFile.fname).Nodup :=
    hnodl.perm (hperm.map LogFile.fname).symm
  have hnodSplit : ((S.take k).map LogFile.fname ++ (S.drop k).map LogFile.fname).Nodup := by
    rw [← List.map_append, hsplit]; exact hnodS
  have hdisj : ((S.take k).map LogFile.fname).Disjoint ((S.drop k).map LogFile.fname) :=
    (List.nodup_append.mp hnodSplit).2.2
  have hdropNames : ∀ g ∈ S.drop k, g.fname ∉ (S.take k).map LogFile.fname := by
    intro g hg hmem
    exact hdisj hmem (List.mem_map_of_mem LogFile.fname hg)
  have hnotRdrop : ∀ g ∈ S.drop k, notR g = true := by
    intro g hg
    rw [hnotR]
    simp only [Bool.not_eq_true']
    rw [← Bool.not_eq_true]
    intro hc
    exact hdropNames g hg (List.elem_iff.mp hc)
  have hnotRtake : ∀ f ∈ S.take k, notR f = false := by
    intro f hf
    rw [hnotR]
    simp only [Bool.not_eq_false']
    exact List.elem_iff.mpr (List.mem_map_of_mem LogFile.fname hf)
  have hmemdrop : ∀ g, g ∈ dir.filter notR → sel g = true → g ∈ S.drop k := by
    intro g hg hsel
    obtain ⟨hgdir, hgnotR⟩ := List.mem_filter.mp hg
    have hgS : g ∈ S := hperm.mem_iff.mpr (List.mem_filter.mpr ⟨hgdir, hsel⟩)
    rw [← hsplit] at hgS
    rcases List.mem_append.mp hgS with hgt | hgd
    · rw [hnotRtake g hgt] at hgnotR; cases hgnotR
    · exact hgd
  refine ⟨?_, ?_, ?_, ?_⟩
  · rw [List.length_take, hkdef, hlen]
    omega
  · have e1 : (dir.filter notR).filter sel = (dir.filter sel).filter notR := by
      rw [List.filter_filter, List.filter_filter]
      exact List.filter_congr (fun a _ => Bool.and_comm (sel a) (notR a))
    have e2 : ((dir.filter sel).filter notR).Perm (S.filter notR) :=
      (hperm.filter notR).symm
    have e3 : S.filter notR = S.drop k := by
      conv_lhs => rw [← hsplit]
      rw [List.filter_append,
        List.filter_eq_nil_iff.mpr (fun f hf h => by rw [hnotRtake f hf] at h; cases h),
        List.filter_eq_self.mpr hnotRdrop, List.nil_append]
    have e4 : ((dir.filter sel).filter notR).Perm (S.drop k) := e3 ▸ e2
    rw [e1, e4.length_eq, List.length_drop, hkdef]
    omega
  · intro f hf g hg hsel
    exact hord f hf g (hmemdrop g hg hsel)
  · exact List.Nodup.sublist ((List.filter_sublist dir).map LogFile.fname) hnd

/-- For a positive per-server cap the slice `log_files[:-max_files]` is the
first `length - max_files` elements, so the per-server pass coincides with the
`pruneOldest` shape (the two differ only at `max_files = 0`, where the slice
is empty). -/
lemma pruneOldestServer_eq_pruneOldest (server_name : String) (max_files : Nat)
    (dir : List LogFile) (hpos : 0 < max_files) :
    pruneOldestServer server_name max_files dir =
      pruneOldest (serverLogSel server_name) max_files dir := by
  have hz : max_files ≠ 0 := Nat.pos_iff_ne_zero.mp hpos
  unfold pruneOldestServer pruneOldest dropLastSlice
  simp [hz]

/-- C5: with `N` per-server log files, `N > max_files` and a positive cap, the
per-server rotation pass deletes exactly `N - max_files` files, all of them at
least as old (by modification time) as every surviving per-server file,
leaving exactly `max_files` per-server files on disk; then, whenever the
remaining `.log` files exceed `max_total`, the global pass deletes the oldest
regardless of owning server, leaving exactly `max_total` log files.  (Every
deletion is assumed to succeed; failed deletions are logged and skipped in the
source.  At `max_files = 0` the per-server pass deletes nothing — the Python
slice `[:-0]` is empty — so the positivity hypothesis is required; the
defaults 10 and 100 satisfy it.) -/
theorem C5_log_rotation (server_name : String) (dir : List LogFile)
    (max_files max_total : Nat)
    (hnd : (dir.map LogFile.fname).Nodup)
    (hpos : 0 < max_files)
    (hover : (dir.filter (serverLogSel server_name)).length > max_files) :
    ((rotate_log_files server_name dir max_files max_total).1.length =
        (dir.filter (serverLogSel server_name)).length - max_files) ∧
    (((pruneOldestServer server_name max_files dir).2.filter
        (serverLogSel server_name)).length = max_files) ∧
    (∀ f ∈ (rotate_log_files server_name dir max_files max_total).1,
      ∀ g ∈ (pruneOldestServer server_name max_files dir).2,
        serverLogSel server_name g = true → f.mtime ≤ g.mtime) ∧
    (((pruneOldestServer server_name max_files dir).2.filter anyLogSel).length
          > max_total →
      (((rotate_log_files server_name dir max_files max_total).2.2.filter anyLogSel).length
          = max_total) ∧
      (∀ f ∈ (rotate_log_files server_name dir max_files max_total).2.1,
        ∀ g ∈ (rotate_log_files server_name dir max_files max_total).2.2,
          anyLogSel g = true → f.mtime ≤ g.mtime)) := by
  have hbridge := pruneOldestServer_eq_pruneOldest server_name max_files dir hpos
  have h1 := pruneOldest_spec (serverLogSel server_name) max_files dir hnd hover
  have hproj1 : (rotate_log_files server_name dir max_files max_total).1 =
      (pruneOldest (serverLogSel server_name) max_files dir).1 := by
    show (pruneOldestServer server_name max_files dir).1 = _
    rw [hbridge]
  have hproj2 : (rotate_log_files server_name dir max_files max_total).2.1 =
      (pruneOldest anyLogSel max_total
        (pruneOldest (serverLogSel server_name) max_files dir).2).1 := by
    show (pruneOldest anyLogSel max_total
      (pruneOldestServer server_name max_files dir).2).1 = _
    rw [hbridge]
  have hproj3 : (rotate_log_files server_name dir max_files max_total).2.2 =
      (pruneOldest anyLogSel max_total
        (pruneOldest (serverLogSel server_name) max_files dir).2).2 := by
    show (pruneOldest anyLogSel max_total
      (pruneOldestServer server_name max_files dir).2).2 = _
    rw [hbridge]
  rw [hbridge]
  refine ⟨?_, h1.2.1, ?_, ?_⟩
  · rw [hproj1]; exact h1.1
  · rw [hproj1]; exact h1.2.2.1
  · intro h2
    have hg := pruneOldest_spec anyLogSel max_total
      (pruneOldest (serverLogSel server_name) max_files dir).2 h1.2.2.2 h2
    constructor
    · rw [hproj3]; exact hg.2.1
    · intro f hf g hgmem hsel
      rw [hproj2] at hf
      rw [hproj3] at hgmem
      exact hg.2.2.1 f hf g hgmem hsel

/-- Witness for C5 at a concrete input (caps 1 per-server and 2 global): the
per-server pass deletes two of server `a`'s three files leaving exactly one,
and the global pass brings the directory down to exactly two `.log` files. -/
theorem C5_log_rotation_witness :
    ((rotate_log_files "a" c5Dir 1 2).1.length =
        (c5Dir.filter (serverLogSel "a")).length - 1) ∧
    (((pruneOldestServer "a" 1 c5Dir).2.filter (serverLogSel "a")).length = 1) ∧
    (((rotate_log_files "a" c5Dir 1 2).2.2.filter anyLogSel).length = 2) := by
  have h := C5_log_rotation "a" c5Dir 1 2 (by decide) (by decide) (by decide)
  exact ⟨h.1, h.2.1, (h.2.2.2 (by decide)).1⟩

end McpManager
